import Mathlib

/-!
Verification of the resilient external-invocation layer of the
jira-llama-stack-agent repository: the Atlassian MCP tool-calling client
(`src/integrations/mcp_client.py`) and the pluggable model-provider layer
(`src/providers/*.py`), shallowly embedded in Lean 4.

Conventions of the embedding:
* Python dicts with string keys are association lists `List (String × String)`;
  key membership is `hasKey` and in-place key insertion is modelled by
  returning the dict's final state (Python dicts are passed by reference, so
  the caller observes the mutation).
* The remote transport is a parameter: attempt `k` of a tool call observes
  outcome `transport k`; one successful backend response is a value of the
  per-provider response structure.
* Exceptions are values: a fallible client call is `Except String v`; the
  `for` retry loop becomes structural recursion on the number of remaining
  iterations (`fuel`), which callers instantiate with `retries`, so
  `fuel = 0` is exactly the loop running out of iterations.
* Ghost observers (`RetSite`, attempt counters, the final parameter dict)
  are carried alongside the result so that control-flow claims (which
  `return` fired, how many transport calls were made) are statable; the
  `result` component is exactly the Python return value.
-/

namespace JiraAgent

/-! ## Strings: truthiness and substring search -/

/-- Python truthiness of an optional string: `None` and `""` are falsy. -/
def strTruthy : Option String → Bool
  | none => false
  | some s => s ≠ ""

/-- Python `str.lower()`, on the character list (the source only compares
ASCII keywords). -/
def strLower (s : String) : String := String.mk (s.data.map Char.toLower)

/-- Boolean test that `pre` is a prefix of `l` (character lists). -/
def listPrefixEq : List Char → List Char → Bool
  | [], _ => true
  | _ :: _, [] => false
  | a :: as, b :: bs => a == b && listPrefixEq as bs

/-- Boolean test that `sub` occurs contiguously inside `hay` (character lists). -/
def charsContain (hay sub : List Char) : Bool :=
  if listPrefixEq sub hay then true
  else
    match hay with
    | [] => false
    | _ :: t => charsContain t sub

/-- Python `sub in s` on strings: contiguous substring occurrence. -/
def containsSub (s sub : String) : Bool :=
  charsContain s.toList sub.toList

/-! ## MCP client data model (`mcp_client.py`) -/

/-- A Python parameter dict with string keys; values modelled as strings. -/
abbrev Params := List (String × String)

/-- Python `key in dict`. -/
def hasKey (p : Params) (k : String) : Bool :=
  (p.lookup k).isSome

/-- `MCPToolResult` (mcp_client.py lines 24-32); every field except
`success` defaults to `None`. -/
structure MCPToolResult where
  success : Bool
  data : Option Params := none
  error : Option String := none
  tool_name : Option String := none
  execution_time_ms : Option Nat := none
deriving DecidableEq, Repr

/-- Outcome of one transport attempt: `llama_client.tools.call` either
returns a result dict or raises an exception carrying a message. -/
inductive Outcome where
  | success (data : Params)
  | failure (msg : String)

/-- The error classes distinguished by the `except` block of `call_tool`. -/
inductive ErrClass where
  | rateLimited
  | notFound
  | permissionDenied
  | unclassified
deriving DecidableEq, Repr

/-- Error classification of `call_tool` (lines 200-218): case-insensitive
substring tests on `str(e).lower()`, in the source's `if`/`elif` order. -/
def classify (msg : String) : ErrClass :=
  let error_msg := strLower msg
  if containsSub error_msg "rate limit" then ErrClass.rateLimited
  else if containsSub error_msg "not found" then ErrClass.notFound
  else if containsSub error_msg "permission" || containsSub error_msg "unauthorized" then
    ErrClass.permissionDenied
  else ErrClass.unclassified

/-- The textual `return` statement of `call_tool` that produced the result
(ghost observer; `finalAttemptReturn` is the `if attempt == retries - 1`
return at line 230, `afterLoop` the trailing return at line 237). -/
inductive RetSite where
  | successReturn
  | notFoundReturn
  | permissionReturn
  | finalAttemptReturn
  | afterLoop
deriving DecidableEq, Repr

/-- Result of the retry loop together with the ghost observers: which
`return` fired and how many transport attempts were made. -/
structure LoopOut where
  result : MCPToolResult
  site : RetSite
  attempts : Nat
deriving DecidableEq, Repr

/-- The `for attempt in range(retries)` body of `call_tool`
(lines 182-241), as structural recursion on the number of remaining loop
iterations (`fuel`); callers pass `fuel = retries`, `attempt = 0`, so
running out of fuel is exactly falling off the end of the loop into the
trailing `return` (line 237).  Branches mirror the source: success returns
at once; a rate-limited failure with `attempt < retries - 1` sleeps and
continues; `not found` and `permission`/`unauthorized` return fixed
strings; any other failure (including a rate-limited one on the final
attempt, which falls through its inner `if`) reaches the bottom block and
returns `str(e)` when `attempt == retries - 1`, else loops. -/
def callToolLoopAux (transport : Nat → Outcome) (elapsed : Nat → Nat) (tool_name : String)
    (retries : Nat) : Nat → Nat → LoopOut
  | 0, _ =>
      ⟨{ success := false, error := some "Max retries exceeded", tool_name := some tool_name },
        RetSite.afterLoop, 0⟩
  | fuel + 1, attempt =>
      match transport attempt with
      | Outcome.success d =>
          ⟨{ success := true, data := some d, tool_name := some tool_name,
             execution_time_ms := some (elapsed attempt) }, RetSite.successReturn, 1⟩
      | Outcome.failure msg =>
          match classify msg with
          | ErrClass.rateLimited =>
              if attempt < retries - 1 then
                let rest := callToolLoopAux transport elapsed tool_name retries fuel (attempt + 1)
                ⟨rest.result, rest.site, rest.attempts + 1⟩
              else
                ⟨{ success := false, error := some msg, tool_name := some tool_name,
                   execution_time_ms := some (elapsed attempt) }, RetSite.finalAttemptReturn, 1⟩
          | ErrClass.notFound =>
              ⟨{ success := false, error := some "Resource not found",
                 tool_name := some tool_name }, RetSite.notFoundReturn, 1⟩
          | ErrClass.permissionDenied =>
              ⟨{ success := false, error := some "Permission denied",
                 tool_name := some tool_name }, RetSite.permissionReturn, 1⟩
          | ErrClass.unclassified =>
              if attempt = retries - 1 then
                ⟨{ success := false, error := some msg, tool_name := some tool_name,
                   execution_time_ms := some (elapsed attempt) }, RetSite.finalAttemptReturn, 1⟩
              else
                let rest := callToolLoopAux transport elapsed tool_name retries fuel (attempt + 1)
                ⟨rest.result, rest.site, rest.attempts + 1⟩

/-- Lines 178-180 of `call_tool`: inject the cached cloud id into the
caller's parameter dict, in place, when the key is absent and the cached
id is truthy. -/
def injectCloudId (cloud_id : Option String) (parameters : Params) : Params :=
  if !hasKey parameters "cloudId" && strTruthy cloud_id then
    parameters ++ [("cloudId", cloud_id.getD "")]
  else parameters

/-- Full observable behaviour of one `call_tool` invocation: the returned
`MCPToolResult`, the return site, the number of transport attempts, and the
final state of the caller's parameter dict (which `call_tool` mutates in
place at lines 179-180 and then dispatches on every attempt). -/
structure CallTrace where
  result : MCPToolResult
  site : RetSite
  attempts : Nat
  paramsFinal : Params
deriving DecidableEq, Repr

/-- `AtlassianMCPClient.call_tool` (lines 158-241).  `cloud_id` is the
client's cached tenant id, `transport` gives the outcome of each attempt,
`elapsed` the measured elapsed milliseconds at each attempt's return. -/
def call_tool (cloud_id : Option String) (transport : Nat → Outcome) (elapsed : Nat → Nat)
    (tool_name : String) (parameters : Params) (retries : Nat := 3) : CallTrace :=
  let dispatched := injectCloudId cloud_id parameters
  let out := callToolLoopAux transport elapsed tool_name retries retries 0
  ⟨out.result, out.site, out.attempts, dispatched⟩

/-! ## Provider data model (`providers/base.py`) -/

/-- Token-usage record built by the adapters. -/
structure Usage where
  prompt_tokens : Nat
  completion_tokens : Nat
  total_tokens : Nat
deriving DecidableEq, Repr

/-- `ModelResponse` (base.py lines 32-39), polymorphic in the type of the
backend's raw payload so that backend wrappers appear only in
`raw_response`. -/
structure ModelResponse (Raw : Type) where
  content : String
  model : String
  finish_reason : Option String := none
  usage : Option Usage := none
  raw_response : Option Raw := none

/-- The configuration dict consumed by `BaseModelProvider.__init__` and the
factory; absent keys are `none`. -/
structure ProviderConfigD where
  provider : Option String := none
  model_name : Option String := none
  base_url : Option String := none
  api_key : Option String := none
  temperature : Option ℚ := none
  max_tokens : Option Nat := none
deriving DecidableEq, Repr

/-- Fields set by `BaseModelProvider.__init__` (base.py lines 53-65). -/
structure BaseFields where
  model_name : String
  base_url : Option String
  api_key : Option String
  default_temperature : ℚ
  default_max_tokens : Nat
deriving DecidableEq, Repr

/-- `BaseModelProvider.__init__`: `config.get` with the source's defaults. -/
def baseInit (config : ProviderConfigD) : BaseFields :=
  { model_name := config.model_name.getD ""
    base_url := config.base_url
    api_key := config.api_key
    default_temperature := config.temperature.getD 0.7
    default_max_tokens := config.max_tokens.getD 4096 }

/-- Python `x or default` on an optional string field: the default replaces
`None` and the empty string. -/
def orDefault (s : Option String) (d : String) : Option String :=
  match s with
  | none => some d
  | some v => if v = "" then some d else some v

/-! ## Llama Stack provider (`providers/llama_stack_provider.py`) -/

/-- One element of a list-shaped `response.content`: an object with a
`.text` attribute, a dict with a `"text"` key, or anything else (which the
extraction loop skips). -/
inductive LSBlock where
  | attrText (text : String)
  | dictText (text : String)
  | other
deriving DecidableEq, Repr

/-- The wire shapes of `response.content` the adapter accepts
(lines 84-96): a plain string, a list of content blocks, an object with a
`.text` attribute, or any other object (whose `str()` cast is recorded). -/
inductive LSContent where
  | str (s : String)
  | blocks (bs : List LSBlock)
  | textObj (text : String)
  | objOther (castStr : String)
deriving DecidableEq, Repr

/-- Python truthiness of `response.content` (the `and response.content`
guard at line 85): empty strings and empty lists are falsy, objects are
truthy. -/
def lsTruthy : LSContent → Bool
  | LSContent.str s => s ≠ ""
  | LSContent.blocks bs => !bs.isEmpty
  | LSContent.textObj _ => true
  | LSContent.objOther _ => true

/-- Text contributed by one content block in the extraction loop
(lines 88-92): blocks with neither a `.text` attribute nor a `"text"` key
contribute nothing. -/
def lsBlockText : LSBlock → String
  | LSBlock.attrText t => t
  | LSBlock.dictText t => t
  | LSBlock.other => ""

/-- Sequential string concatenation (`content += ...`). -/
def joinStrs : List String → String
  | [] => ""
  | s :: ss => s ++ joinStrs ss

/-- Content normalization of `LlamaStackProvider.chat_completion`
(lines 84-96): `content` starts as `""`; a missing or falsy
`response.content` leaves it empty; a list concatenates its blocks' texts;
an object with `.text` yields that text; a plain string falls through to
the `str()` cast, which is the string itself. -/
def lsExtractContent : Option LSContent → String
  | none => ""
  | some c =>
      if lsTruthy c then
        match c with
        | LSContent.blocks bs => joinStrs (bs.map lsBlockText)
        | LSContent.textObj t => t
        | LSContent.str s => s
        | LSContent.objOther s => s
      else ""

/-- `response.usage` as the adapter reads it: each counter via
`getattr(..., 0)`. -/
structure LSUsage where
  prompt_tokens : Option Nat := none
  completion_tokens : Option Nat := none
  total_tokens : Option Nat := none
deriving DecidableEq, Repr

/-- A successful Llama Stack chat-completion response. -/
structure LSResponse where
  content : Option LSContent := none
  usage : Option LSUsage := none
  stop_reason : Option String := none
deriving DecidableEq, Repr

/-- Success path of `LlamaStackProvider.chat_completion` (lines 80-113). -/
def llamaStackChatCompletion (base : BaseFields) (response : LSResponse) :
    ModelResponse LSResponse :=
  { content := lsExtractContent response.content
    model := base.model_name
    finish_reason := response.stop_reason
    usage := response.usage.map fun u =>
      { prompt_tokens := u.prompt_tokens.getD 0
        completion_tokens := u.completion_tokens.getD 0
        total_tokens := u.total_tokens.getD 0 }
    raw_response := some response }

/-- The value produced by `self.client.models.list()` when it does not
raise: a Python list of identifiers, or some non-list value. -/
inductive LSModelsVal where
  | list (ms : List String)
  | notList
deriving DecidableEq, Repr

/-- `LlamaStackProvider.list_models` (lines 163-181): a raising client call
is caught and becomes `[]`; a non-list value becomes `[]`; the function
itself never raises. -/
def lsListModels (client_list : Except String LSModelsVal) : Except String (List String) :=
  match client_list with
  | Except.ok (LSModelsVal.list ms) => Except.ok ms
  | Except.ok LSModelsVal.notList => Except.ok []
  | Except.error _ => Except.ok []

/-- `LlamaStackProvider.health_check` (lines 183-196): awaits
`list_models` and returns `True`; the `except` branch returning `False`
only fires if `list_models` raises. -/
def lsHealthCheck (client_list : Except String LSModelsVal) : Bool :=
  match lsListModels client_list with
  | Except.ok _ => true
  | Except.error _ => false

/-! ## OpenAI provider (`providers/openai_provider.py`) -/

/-- A successful OpenAI chat-completion response, reduced to the fields the
adapter reads (`choices[0].message.content` may be `None`). -/
structure OpenAIResponse where
  message_content : Option String := none
  model : String := ""
  finish_reason : Option String := none
  usage : Option Usage := none
deriving DecidableEq, Repr

/-- Line 106: `response.choices[0].message.content or ""`. -/
def openaiExtractContent (message_content : Option String) : String :=
  match message_content with
  | none => ""
  | some s => s

/-- Success path of `OpenAIProvider.chat_completion` (lines 103-123). -/
def openaiChatCompletion (response : OpenAIResponse) : ModelResponse OpenAIResponse :=
  { content := openaiExtractContent response.message_content
    model := response.model
    finish_reason := response.finish_reason
    usage := response.usage
    raw_response := some response }

/-- `OpenAIProvider.list_models` (lines 172-184): exceptions from the
client call become `[]`; never raises. -/
def openaiListModels (client_list : Except String (List String)) : Except String (List String) :=
  match client_list with
  | Except.ok ms => Except.ok ms
  | Except.error _ => Except.ok []

/-- `OpenAIProvider.health_check` (lines 186-199): same dead-`except`
structure as the Llama Stack adapter. -/
def openaiHealthCheck (client_list : Except String (List String)) : Bool :=
  match openaiListModels client_list with
  | Except.ok _ => true
  | Except.error _ => false

/-! ## Ollama provider (`providers/ollama_provider.py`) -/

/-- `data["message"]` of a non-streaming Ollama response. -/
structure OllamaMessage where
  content : Option String := none
deriving DecidableEq, Repr

/-- A successful non-streaming Ollama `/api/chat` response body. -/
structure OllamaData where
  message : Option OllamaMessage := none
  model : Option String := none
  done_reason : Option String := none
  prompt_eval_count : Option Nat := none
  eval_count : Option Nat := none
deriving DecidableEq, Repr

/-- Line 84: `data.get("message", {}).get("content", "")`. -/
def ollamaChatContent (data : OllamaData) : String :=
  match data.message with
  | none => ""
  | some m => m.content.getD ""

/-- Success path of `OllamaProvider.chat_completion` (lines 78-101). -/
def ollamaChatCompletion (base : BaseFields) (data : OllamaData) : ModelResponse OllamaData :=
  { content := ollamaChatContent data
    model := data.model.getD base.model_name
    finish_reason := data.done_reason
    usage :=
      if data.prompt_eval_count.isSome || data.eval_count.isSome then
        some { prompt_tokens := data.prompt_eval_count.getD 0
               completion_tokens := data.eval_count.getD 0
               total_tokens := data.prompt_eval_count.getD 0 + data.eval_count.getD 0 }
      else none
    raw_response := some data }

/-- One line of the Ollama streaming response body as the loop at
lines 153-162 sees it: an empty line (falsy, skipped), a line that fails
JSON decoding (skipped), a decoded object without a `"message"` key
(skipped), or a message whose `"content"` may be absent. -/
inductive OllamaStreamLine where
  | emptyLine
  | invalidJson
  | noMessageKey
  | message (content : Option String)
deriving DecidableEq, Repr

/-- The chunk yielded for one stream line, if any: only a present, nonempty
`message.content` passes the `if chunk:` guard at line 159. -/
def ollamaLineChunk : OllamaStreamLine → Option String
  | OllamaStreamLine.message (some c) => if c = "" then none else some c
  | OllamaStreamLine.message none => none
  | OllamaStreamLine.emptyLine => none
  | OllamaStreamLine.invalidJson => none
  | OllamaStreamLine.noMessageKey => none

/-- The chunk sequence produced by `OllamaProvider.stream_chat_completion`
(lines 148-162). -/
def ollamaStreamChunks (lines : List OllamaStreamLine) : List String :=
  lines.filterMap ollamaLineChunk

/-- The message text a stream line carries (malformed or message-less lines
carry none); the ground truth the fake backend splits across lines. -/
def ollamaLineContent : OllamaStreamLine → String
  | OllamaStreamLine.message c => c.getD ""
  | OllamaStreamLine.emptyLine => ""
  | OllamaStreamLine.invalidJson => ""
  | OllamaStreamLine.noMessageKey => ""

/-- `OllamaProvider.health_check` (lines 190-203): its own GET of
`/api/tags`; a raising request is caught into `False`, a response is
healthy iff its status is 200. -/
def ollamaHealthCheck (get_tags : Except String Nat) : Bool :=
  match get_tags with
  | Except.ok status => status == 200
  | Except.error _ => false

/-! ## Provider factory (`providers/factory.py`) -/

/-- `ProviderType.all()` (factory.py lines 16-25); these are also exactly
the keys of `ModelProviderFactory._provider_classes` (lines 44-48). -/
def providerTypeAll : List String := ["ollama", "llama_stack", "openai"]

/-- The exceptions `ModelProviderFactory.create` can raise; `ValueError`
realizes the spec's `ConfigError`, `ImportError` its `DependencyError`. -/
inductive FactoryError where
  | valueError (msg : String)
  | importError (msg : String)
deriving DecidableEq, Repr

/-- The backend kind of a constructed provider. -/
inductive ProviderKind where
  | ollama
  | llama_stack
  | openai
deriving DecidableEq, Repr

/-- A constructed provider adapter: its kind plus the base fields after the
subclass constructor ran. -/
structure Provider where
  kind : ProviderKind
  base : BaseFields
deriving DecidableEq, Repr

/-- Python `str(ProviderType.all())` as interpolated into the factory's
error messages. -/
def supportedProvidersStr : String := "['ollama', 'llama_stack', 'openai']"

/-- Message of the `ValueError` raised when the `provider` key is missing
(factory.py lines 67-71). -/
def missingProviderMsg : String :=
  "Provider configuration must include 'provider' key. Supported providers: "
    ++ supportedProvidersStr

/-- Message of the `ValueError` raised for an unsupported provider type
(factory.py lines 75-79). -/
def unsupportedProviderMsg (provider_type : String) : String :=
  "Unsupported provider type: " ++ provider_type ++ ". Supported providers: "
    ++ supportedProvidersStr

/-- `OllamaProvider.__init__` (ollama_provider.py lines 23-36). -/
def ollamaInit (config : ProviderConfigD) : Except FactoryError Provider :=
  let b := baseInit config
  Except.ok { kind := ProviderKind.ollama
              base := { b with base_url := orDefault b.base_url "http://localhost:11434" } }

/-- `LlamaStackProvider.__init__` (llama_stack_provider.py lines 23-43). -/
def llamaStackInit (config : ProviderConfigD) : Except FactoryError Provider :=
  let b := baseInit config
  Except.ok { kind := ProviderKind.llama_stack
              base := { b with base_url := orDefault b.base_url "http://localhost:5000" } }

/-- `OpenAIProvider.__init__` (openai_provider.py lines 27-60):
`ImportError` when the `openai` package is unavailable, `ValueError` when
the api key is missing or empty. -/
def openaiInit (openai_available : Bool) (config : ProviderConfigD) :
    Except FactoryError Provider :=
  if !openai_available then
    Except.error (FactoryError.importError
      "OpenAI provider requires the 'openai' package. Install it with: pip install openai>=1.0.0")
  else
    let b := baseInit config
    if !strTruthy b.api_key then
      Except.error (FactoryError.valueError "OpenAI provider requires an API key")
    else Except.ok { kind := ProviderKind.openai, base := b }

/-- `ModelProviderFactory.create` (factory.py lines 50-94): a falsy
`provider` key raises the missing-key `ValueError`; an unregistered
(lower-cased) type raises the unsupported-type `ValueError`; otherwise the
chosen constructor runs, with a raised `ImportError` re-wrapped and every
other exception propagated unchanged. -/
def factoryCreate (openai_available : Bool) (config : ProviderConfigD) :
    Except FactoryError Provider :=
  if !strTruthy config.provider then
    Except.error (FactoryError.valueError missingProviderMsg)
  else
    let provider_type := strLower (config.provider.getD "")
    if !providerTypeAll.contains provider_type then
      Except.error (FactoryError.valueError (unsupportedProviderMsg provider_type))
    else
      let constructed :=
        if provider_type = "ollama" then ollamaInit config
        else if provider_type = "llama_stack" then llamaStackInit config
        else openaiInit openai_available config
      match constructed with
      | Except.error (FactoryError.importError e) =>
          Except.error (FactoryError.importError
            ("Required dependencies for " ++ provider_type
              ++ " provider are not installed. Error: " ++ e))
      | other => other

/-- A configuration whose `provider` key is missing, falsy, or (after
lower-casing) not a registered provider type. -/
def badKind : Option String → Bool
  | none => true
  | some p => p = "" || !providerTypeAll.contains (strLower p)

/-! ## Helper lemmas -/

lemma lookup_append_single (p : Params) (k v : String) (h : p.lookup k = none) :
    (p ++ [(k, v)]).lookup k = some v := by
  induction p with
  | nil => simp [List.lookup]
  | cons a t ih =>
    obtain ⟨ka, vb⟩ := a
    simp only [List.cons_append, List.lookup]
    cases hk : (k == ka) with
    | true =>
      exfalso
      simp only [List.lookup, hk] at h
      exact Option.some_ne_none _ h
    | false =>
      simp only [List.lookup, hk] at h ⊢
      exact ih h

lemma hasKey_false_lookup {p : Params} {k : String} (h : hasKey p k = false) :
    p.lookup k = none := by
  cases hl : p.lookup k with
  | none => rfl
  | some v =>
    exfalso
    unfold hasKey at h
    rw [hl] at h
    simp at h

lemma charsContain_append_right (x y sub : List Char) (h : charsContain y sub = true) :
    charsContain (x ++ y) sub = true := by
  induction x with
  | nil => simpa using h
  | cons a t ih =>
    rw [List.cons_append, charsContain]
    cases hp : listPrefixEq sub (a :: (t ++ y)) <;> simp [hp, ih]

lemma containsSub_append_right (x y sub : String) (h : containsSub y sub = true) :
    containsSub (x ++ y) sub = true := by
  unfold containsSub at h ⊢
  rw [show (x ++ y).toList = x.toList ++ y.toList by simp [String.toList]]
  exact charsContain_append_right _ _ _ h

/-! ## C2: tenant-id injection -/

/-- C2: with a resolved (truthy) tenant id cached and no `cloudId` key in
the caller's map, `call_tool` injects the resolved id into the dispatched
parameters; a map already carrying `cloudId` is dispatched untouched, its
value preserved. -/
theorem cloud_id_injection (cloud_id : String) (hid : cloud_id ≠ "")
    (parameters : Params) (transport : Nat → Outcome) (elapsed : Nat → Nat)
    (tool_name : String) (retries : Nat) :
    (hasKey parameters "cloudId" = false →
      (call_tool (some cloud_id) transport elapsed tool_name parameters retries).paramsFinal
          = parameters ++ [("cloudId", cloud_id)]
        ∧ (call_tool (some cloud_id) transport elapsed tool_name parameters
            retries).paramsFinal.lookup "cloudId" = some cloud_id)
    ∧ (hasKey parameters "cloudId" = true →
      (call_tool (some cloud_id) transport elapsed tool_name parameters retries).paramsFinal
          = parameters) := by
  constructor
  · intro h
    have hp : (call_tool (some cloud_id) transport elapsed tool_name parameters
        retries).paramsFinal = parameters ++ [("cloudId", cloud_id)] := by
      simp [call_tool, injectCloudId, h, strTruthy, hid]
    exact ⟨hp, hp ▸ lookup_append_single parameters "cloudId" cloud_id (hasKey_false_lookup h)⟩
  · intro h
    simp [call_tool, injectCloudId, h]

/-- Witness for C2: after resolving tenant id `abc123`, a call with empty
parameters dispatches with `cloudId = abc123`, and a call with an explicit
`cloudId` keeps it. -/
theorem cloud_id_injection_witness :
    (call_tool (some "abc123") (fun _ => Outcome.success []) (fun _ => 0)
        "Atlassian:getJiraIssue" [] 3).paramsFinal = [("cloudId", "abc123")]
    ∧ (call_tool (some "abc123") (fun _ => Outcome.success []) (fun _ => 0)
        "Atlassian:getJiraIssue" [("cloudId", "explicit")] 3).paramsFinal
      = [("cloudId", "explicit")] := by
  refine ⟨((cloud_id_injection "abc123" (by decide) [] (fun _ => Outcome.success [])
      (fun _ => 0) "Atlassian:getJiraIssue" 3).1 (by decide)).1,
    (cloud_id_injection "abc123" (by decide) [("cloudId", "explicit")]
      (fun _ => Outcome.success []) (fun _ => 0) "Atlassian:getJiraIssue" 3).2 (by decide)⟩

/-! ## C7: side effects of `call_tool` on the caller's map -/

/-- C7 counterexample: calling with an empty parameter dict and a resolved
tenant id leaves the caller's dict changed after the call returns — the
injection at lines 179-180 mutates the passed dict in place, so it is not
unchanged as claimed. -/
theorem params_map_mutated_counterexample :
    (call_tool (some "abc123") (fun _ => Outcome.success []) (fun _ => 0)
        "Atlassian:atlassianUserInfo" [] 3).paramsFinal ≠ [] := by decide

/-- C7 (amended): beyond the remote call, `call_tool`'s only effect is on
the caller's parameter map, which it updates in place to
`injectCloudId cloud_id parameters`: unchanged when the map already has a
`cloudId` key or no truthy tenant id is cached, and strictly extended by
the injected `cloudId` entry otherwise. -/
theorem call_side_effects (cloud_id : Option String) (transport : Nat → Outcome)
    (elapsed : Nat → Nat) (tool_name : String) (parameters : Params) (retries : Nat) :
    (call_tool cloud_id transport elapsed tool_name parameters retries).paramsFinal
        = injectCloudId cloud_id parameters
    ∧ (hasKey parameters "cloudId" = true ∨ strTruthy cloud_id = false →
        (call_tool cloud_id transport elapsed tool_name parameters retries).paramsFinal
          = parameters)
    ∧ (hasKey parameters "cloudId" = false → strTruthy cloud_id = true →
        (call_tool cloud_id transport elapsed tool_name parameters retries).paramsFinal
          ≠ parameters) := by
  refine ⟨rfl, ?_, ?_⟩
  · rintro (h | h) <;> simp [call_tool, injectCloudId, h]
  · intro h1 h2 heq
    have hp : (call_tool cloud_id transport elapsed tool_name parameters retries).paramsFinal
        = parameters ++ [("cloudId", cloud_id.getD "")] := by
      simp [call_tool, injectCloudId, h1, h2]
    rw [hp] at heq
    have hl := congrArg List.length heq
    simp at hl

/-- Witness for C7 (amended): a dict already holding `cloudId` is returned
unchanged; a dict without it is returned extended. -/
theorem call_side_effects_witness :
    (call_tool (some "abc") (fun _ => Outcome.success []) (fun _ => 0) "t"
        [("cloudId", "v")] 3).paramsFinal = [("cloudId", "v")]
    ∧ (call_tool (some "abc") (fun _ => Outcome.success []) (fun _ => 0) "t"
        [("key", "1")] 3).paramsFinal ≠ [("key", "1")] := by
  refine ⟨(call_side_effects (some "abc") (fun _ => Outcome.success []) (fun _ => 0) "t"
      [("cloudId", "v")] 3).2.1 (Or.inl (by decide)),
    (call_side_effects (some "abc") (fun _ => Outcome.success []) (fun _ => 0) "t"
      [("key", "1")] 3).2.2 (by decide) (by decide)⟩

/-! ## Retry-loop lemmas -/

/-- When every remaining attempt fails with a rate-limited-classified error,
the loop reaches the final attempt and returns that attempt's original
message from the bottom block (line 230), making one transport call per
remaining iteration. -/
lemma callToolLoopAux_all_rate_limited (transport : Nat → Outcome) (elapsed : Nat → Nat)
    (tool_name : String) (retries : Nat) (m : Nat → String) :
    ∀ fuel attempt, fuel + attempt = retries → 1 ≤ fuel →
      (∀ k, attempt ≤ k → k < retries → transport k = Outcome.failure (m k)) →
      (∀ k, attempt ≤ k → k < retries → classify (m k) = ErrClass.rateLimited) →
      callToolLoopAux transport elapsed tool_name retries fuel attempt
        = ⟨{ success := false, error := some (m (retries - 1)), tool_name := some tool_name,
             execution_time_ms := some (elapsed (retries - 1)) },
           RetSite.finalAttemptReturn, fuel⟩ := by
  intro fuel
  induction fuel with
  | zero => intro attempt h1 h2; omega
  | succ f ih =>
    intro attempt h1 _ hf hc
    have ha : attempt < retries := by omega
    by_cases hlt : attempt < retries - 1
    · have hrec := ih (attempt + 1) (by omega) (by omega)
        (fun k hk1 hk2 => hf k (by omega) hk2) (fun k hk1 hk2 => hc k (by omega) hk2)
      simp only [callToolLoopAux, hf attempt le_rfl ha, hc attempt le_rfl ha, if_pos hlt, hrec]
    · have heq : attempt = retries - 1 := by omega
      have hfz : f = 0 := by omega
      subst hfz
      subst heq
      simp only [callToolLoopAux, hf (retries - 1) le_rfl ha, hc (retries - 1) le_rfl ha,
        if_neg hlt]

/-- Any `success = false` result of the loop carries one of the fixed
classified strings or the original message of a failed transport attempt
within the iteration window. -/
lemma callToolLoopAux_error_classified (transport : Nat → Outcome) (elapsed : Nat → Nat)
    (tool_name : String) (retries : Nat) :
    ∀ fuel attempt,
      (callToolLoopAux transport elapsed tool_name retries fuel attempt).result.success = false →
      ∃ e, (callToolLoopAux transport elapsed tool_name retries fuel attempt).result.error
          = some e
        ∧ (e = "Resource not found" ∨ e = "Permission denied" ∨ e = "Max retries exceeded"
            ∨ ∃ k, attempt ≤ k ∧ k < attempt + fuel ∧ transport k = Outcome.failure e) := by
  intro fuel
  induction fuel with
  | zero =>
    intro attempt _
    exact ⟨"Max retries exceeded", rfl, Or.inr (Or.inr (Or.inl rfl))⟩
  | succ f ih =>
    intro attempt hsucc
    cases ht : transport attempt with
    | success d =>
      simp only [callToolLoopAux, ht] at hsucc
      cases hsucc
    | failure msg =>
      cases hcl : classify msg with
      | rateLimited =>
        by_cases hlt : attempt < retries - 1
        · simp only [callToolLoopAux, ht, hcl, if_pos hlt] at hsucc ⊢
          obtain ⟨e, he, hca⟩ := ih (attempt + 1) hsucc
          refine ⟨e, he, ?_⟩
          rcases hca with h | h | h | ⟨k, hk1, hk2, hk3⟩
          · exact Or.inl h
          · exact Or.inr (Or.inl h)
          · exact Or.inr (Or.inr (Or.inl h))
          · exact Or.inr (Or.inr (Or.inr ⟨k, by omega, by omega, hk3⟩))
        · simp only [callToolLoopAux, ht, hcl, if_neg hlt]
          exact ⟨msg, rfl, Or.inr (Or.inr (Or.inr ⟨attempt, le_rfl, by omega, ht⟩))⟩
      | notFound =>
        simp only [callToolLoopAux, ht, hcl]
        exact ⟨"Resource not found", rfl, Or.inl rfl⟩
      | permissionDenied =>
        simp only [callToolLoopAux, ht, hcl]
        exact ⟨"Permission denied", rfl, Or.inr (Or.inl rfl)⟩
      | unclassified =>
        by_cases heq : attempt = retries - 1
        · simp only [callToolLoopAux, ht, hcl, if_pos heq]
          exact ⟨msg, rfl, Or.inr (Or.inr (Or.inr ⟨attempt, le_rfl, by omega, ht⟩))⟩
        · simp only [callToolLoopAux, ht, hcl, if_neg heq] at hsucc ⊢
          obtain ⟨e, he, hca⟩ := ih (attempt + 1) hsucc
          refine ⟨e, he, ?_⟩
          rcases hca with h | h | h | ⟨k, hk1, hk2, hk3⟩
          · exact Or.inl h
          · exact Or.inr (Or.inl h)
          · exact Or.inr (Or.inr (Or.inl h))
          · exact Or.inr (Or.inr (Or.inr ⟨k, by omega, by omega, hk3⟩))

/-- With at least one loop iteration and the fuel/attempt invariant of its
callers, the loop returns from one of its in-loop `return` statements,
never from the trailing return after the loop. -/
lemma callToolLoopAux_site_ne_afterLoop (transport : Nat → Outcome) (elapsed : Nat → Nat)
    (tool_name : String) (retries : Nat) :
    ∀ fuel attempt, fuel + attempt = retries → 1 ≤ fuel →
      (callToolLoopAux transport elapsed tool_name retries fuel attempt).site
        ≠ RetSite.afterLoop := by
  intro fuel
  induction fuel with
  | zero => intro attempt h1 h2; omega
  | succ f ih =>
    intro attempt h1 _
    cases ht : transport attempt with
    | success d => simp [callToolLoopAux, ht]
    | failure msg =>
      cases hcl : classify msg with
      | rateLimited =>
        by_cases hlt : attempt < retries - 1
        · simp only [callToolLoopAux, ht, hcl, if_pos hlt]
          exact ih (attempt + 1) (by omega) (by omega)
        · simp [callToolLoopAux, ht, hcl, if_neg hlt]
      | notFound => simp [callToolLoopAux, ht, hcl]
      | permissionDenied => simp [callToolLoopAux, ht, hcl]
      | unclassified =>
        by_cases heq : attempt = retries - 1
        · simp [callToolLoopAux, ht, hcl, if_pos heq]
        · simp only [callToolLoopAux, ht, hcl, if_neg heq]
          exact ih (attempt + 1) (by omega) (by omega)

/-! ## C1: rate-limit exhaustion message -/

/-- C1 counterexample: with `retries = 3` and every attempt failing with a
rate-limited-classified error, exhausting the budget returns the original
exception message, not the fixed string `Max retries exceeded`. -/
theorem rate_limit_exhaustion_counterexample :
    (call_tool (some "cloud-1") (fun _ => Outcome.failure "Rate limit exceeded")
        (fun _ => 0) "Atlassian:getJiraIssue" [] 3).result.error
      ≠ some "Max retries exceeded"
    ∧ (call_tool (some "cloud-1") (fun _ => Outcome.failure "Rate limit exceeded")
        (fun _ => 0) "Atlassian:getJiraIssue" [] 3).result.error
      = some "Rate limit exceeded" := by
  constructor <;> decide

/-- C1 (amended): when every attempt of `call_tool` fails with a
rate-limited-classified error and `retries ≥ 1` is exhausted, the call
returns `success = false` with `error` equal to the final attempt's
original exception message, after exactly `retries` transport attempts;
the rate-limited branch's inner guard falls through to the generic
final-attempt return, so the fixed `"Max retries exceeded"` string is
never produced by rate-limit exhaustion (it is reserved for the trailing
return after the loop). -/
theorem rate_limit_exhaustion_message (cloud_id : Option String) (transport : Nat → Outcome)
    (elapsed : Nat → Nat) (tool_name : String) (parameters : Params) (retries : Nat)
    (m : Nat → String) (hr : 1 ≤ retries)
    (hf : ∀ k, k < retries → transport k = Outcome.failure (m k))
    (hc : ∀ k, k < retries → classify (m k) = ErrClass.rateLimited) :
    (call_tool cloud_id transport elapsed tool_name parameters retries).result
        = { success := false, error := some (m (retries - 1)), tool_name := some tool_name,
            execution_time_ms := some (elapsed (retries - 1)) }
    ∧ (call_tool cloud_id transport elapsed tool_name parameters retries).attempts
        = retries
    ∧ (call_tool cloud_id transport elapsed tool_name parameters retries).site
        = RetSite.finalAttemptReturn := by
  have h := callToolLoopAux_all_rate_limited transport elapsed tool_name retries m retries 0
    (by omega) hr (fun k _ hk => hf k hk) (fun k _ hk => hc k hk)
  exact ⟨by simp [call_tool, h], by simp [call_tool, h], by simp [call_tool, h]⟩

/-- Witness for C1 (amended) at `retries = 3` with every attempt failing
rate-limited. -/
theorem rate_limit_exhaustion_message_witness :
    (call_tool none (fun _ => Outcome.failure "Rate limit hit") (fun k => k) "t" [] 3).result
        = { success := false, error := some "Rate limit hit", tool_name := some "t",
            execution_time_ms := some 2 }
    ∧ (call_tool none (fun _ => Outcome.failure "Rate limit hit") (fun k => k) "t" [] 3).attempts
        = 3
    ∧ (call_tool none (fun _ => Outcome.failure "Rate limit hit") (fun k => k) "t" [] 3).site
        = RetSite.finalAttemptReturn :=
  rate_limit_exhaustion_message none (fun _ => Outcome.failure "Rate limit hit") (fun k => k)
    "t" [] 3 (fun _ => "Rate limit hit") (by omega) (fun _ _ => rfl)
    (fun _ _ => by show classify "Rate limit hit" = ErrClass.rateLimited; decide)

/-! ## C3: not-found failures are terminal -/

/-- C3: a first attempt failing with a not-found-classified error makes
`call_tool` return immediately after exactly one transport attempt, with
`success = false` and `error = "Resource not found"`. -/
theorem not_found_terminal (cloud_id : Option String) (transport : Nat → Outcome)
    (elapsed : Nat → Nat) (tool_name : String) (parameters : Params) (retries : Nat)
    (msg : String) (hr : 1 ≤ retries)
    (h0 : transport 0 = Outcome.failure msg) (hc : classify msg = ErrClass.notFound) :
    (call_tool cloud_id transport elapsed tool_name parameters retries).result
        = { success := false, error := some "Resource not found", tool_name := some tool_name }
    ∧ (call_tool cloud_id transport elapsed tool_name parameters retries).attempts = 1
    ∧ (call_tool cloud_id transport elapsed tool_name parameters retries).site
        = RetSite.notFoundReturn := by
  obtain ⟨r, rfl⟩ : ∃ r, retries = r + 1 := ⟨retries - 1, by omega⟩
  refine ⟨?_, ?_, ?_⟩ <;> simp [call_tool, callToolLoopAux, h0, hc]

/-- Witness for C3: a 404-style failure on the first attempt. -/
theorem not_found_terminal_witness :
    (call_tool none (fun _ => Outcome.failure "Issue not found (404)") (fun _ => 0)
        "Atlassian:getJiraIssue" [] 3).result
        = { success := false, error := some "Resource not found",
            tool_name := some "Atlassian:getJiraIssue" }
    ∧ (call_tool none (fun _ => Outcome.failure "Issue not found (404)") (fun _ => 0)
        "Atlassian:getJiraIssue" [] 3).attempts = 1
    ∧ (call_tool none (fun _ => Outcome.failure "Issue not found (404)") (fun _ => 0)
        "Atlassian:getJiraIssue" [] 3).site = RetSite.notFoundReturn :=
  not_found_terminal none (fun _ => Outcome.failure "Issue not found (404)") (fun _ => 0)
    "Atlassian:getJiraIssue" [] 3 "Issue not found (404)" (by omega) rfl (by decide)

/-! ## C6: tool-call errors are recovered, never raised -/

/-- C6: `call_tool` is total — it always returns an `MCPToolResult` — and
whenever it returns `success = false` its `error` field holds a classified
string: one of the fixed strings `"Resource not found"`,
`"Permission denied"`, `"Max retries exceeded"`, or the original message
of a failed transport attempt. -/
theorem call_never_raises (cloud_id : Option String) (transport : Nat → Outcome)
    (elapsed : Nat → Nat) (tool_name : String) (parameters : Params) (retries : Nat)
    (h : (call_tool cloud_id transport elapsed tool_name parameters retries).result.success
        = false) :
    ∃ e, (call_tool cloud_id transport elapsed tool_name parameters retries).result.error
        = some e
      ∧ (e = "Resource not found" ∨ e = "Permission denied" ∨ e = "Max retries exceeded"
          ∨ ∃ k, k < retries ∧ transport k = Outcome.failure e) := by
  obtain ⟨e, he, hca⟩ := callToolLoopAux_error_classified transport elapsed tool_name retries
    retries 0 (by simpa [call_tool] using h)
  refine ⟨e, by simpa [call_tool] using he, ?_⟩
  rcases hca with h1 | h1 | h1 | ⟨k, _, hk2, hk3⟩
  · exact Or.inl h1
  · exact Or.inr (Or.inl h1)
  · exact Or.inr (Or.inr (Or.inl h1))
  · exact Or.inr (Or.inr (Or.inr ⟨k, by omega, hk3⟩))

/-- Witness for C6: an unclassified failure on every attempt with
`retries = 2` yields a normalized failure result. -/
theorem call_never_raises_witness :
    ∃ e, (call_tool none (fun _ => Outcome.failure "boom") (fun _ => 0) "t" [] 2).result.error
        = some e
      ∧ (e = "Resource not found" ∨ e = "Permission denied" ∨ e = "Max retries exceeded"
          ∨ ∃ k, k < 2 ∧ (fun _ => Outcome.failure "boom") k = Outcome.failure e) :=
  call_never_raises none (fun _ => Outcome.failure "boom") (fun _ => 0) "t" [] 2 (by decide)

/-! ## C10: the trailing return is unreachable for positive retries -/

/-- C10: for `retries ≥ 1`, `call_tool` returns from inside the retry loop
(the trailing `Max retries exceeded` return after the loop fires iff
`retries = 0`), and when `retries = 0` the transport is never invoked. -/
theorem trailing_return_unreachable (cloud_id : Option String) (transport : Nat → Outcome)
    (elapsed : Nat → Nat) (tool_name : String) (parameters : Params) (retries : Nat) :
    ((call_tool cloud_id transport elapsed tool_name parameters retries).site
        = RetSite.afterLoop ↔ retries = 0)
    ∧ (retries = 0 →
        (call_tool cloud_id transport elapsed tool_name parameters retries).attempts = 0
        ∧ (call_tool cloud_id transport elapsed tool_name parameters retries).result
            = { success := false, error := some "Max retries exceeded",
                tool_name := some tool_name }) := by
  constructor
  · constructor
    · intro h
      by_contra hr
      exact callToolLoopAux_site_ne_afterLoop transport elapsed tool_name retries retries 0
        (by omega) (by omega) (by simpa [call_tool] using h)
    · rintro rfl
      rfl
  · rintro rfl
    exact ⟨rfl, rfl⟩

/-- Witness for C10 at `retries = 0`: no attempt is made and the trailing
return produces the fixed string. -/
theorem trailing_return_unreachable_witness :
    (call_tool none (fun _ => Outcome.failure "boom") (fun _ => 0) "t" [] 0).attempts = 0
    ∧ (call_tool none (fun _ => Outcome.failure "boom") (fun _ => 0) "t" [] 0).result
        = { success := false, error := some "Max retries exceeded", tool_name := some "t" } :=
  (trailing_return_unreachable none (fun _ => Outcome.failure "boom") (fun _ => 0)
    "t" [] 0).2 rfl

/-! ## C4: response-content normalization -/

/-- Python `"" ++ s` is `s` (concatenation with the empty accumulator). -/
lemma empty_append_str (s : String) : "" ++ s = s := rfl

/-- C4: every accepted backend content shape — a plain string, a list of
typed text blocks, an object with a `.text` attribute, or no content at
all — normalizes to the fully concatenated text, a string that is possibly
empty but never `None`; the backend wrapper is confined to
`raw_response`; and the three wire-shape variants carrying the same text
normalize to the same `content` string.  The OpenAI adapter likewise maps
a missing `message.content` to `""`. -/
theorem chat_content_normalization (base : BaseFields) (response : LSResponse)
    (oresp : OpenAIResponse) (s : String) (bs : List LSBlock)
    (hbs : joinStrs (bs.map lsBlockText) = s) :
    (llamaStackChatCompletion base response).content = lsExtractContent response.content
    ∧ (llamaStackChatCompletion base response).raw_response = some response
    ∧ lsExtractContent (some (LSContent.str s)) = s
    ∧ lsExtractContent (some (LSContent.blocks bs)) = s
    ∧ lsExtractContent (some (LSContent.textObj s)) = s
    ∧ lsExtractContent none = ""
    ∧ (openaiChatCompletion oresp).content = openaiExtractContent oresp.message_content
    ∧ (openaiChatCompletion oresp).raw_response = some oresp
    ∧ openaiExtractContent none = "" := by
  refine ⟨rfl, rfl, ?_, ?_, rfl, rfl, rfl, rfl, rfl⟩
  · by_cases hs : s = "" <;> simp [lsExtractContent, lsTruthy, hs]
  · cases bs with
    | nil =>
      simp only [List.map_nil, joinStrs] at hbs
      simp [lsExtractContent, lsTruthy, ← hbs]
    | cons b bt =>
      exact hbs

/-- Witness for C4: the three wire shapes carrying `Hello, world` all
normalize to the same content string. -/
theorem chat_content_normalization_witness :
    (llamaStackChatCompletion ⟨"m", none, none, 0.7, 4096⟩
        ⟨some (LSContent.str "Hello, world"), none, none⟩).content
        = lsExtractContent (some (LSContent.str "Hello, world"))
    ∧ (llamaStackChatCompletion ⟨"m", none, none, 0.7, 4096⟩
        ⟨some (LSContent.str "Hello, world"), none, none⟩).raw_response
        = some ⟨some (LSContent.str "Hello, world"), none, none⟩
    ∧ lsExtractContent (some (LSContent.str "Hello, world")) = "Hello, world"
    ∧ lsExtractContent (some (LSContent.blocks
        [LSBlock.attrText "Hello, ", LSBlock.dictText "world", LSBlock.other]))
        = "Hello, world"
    ∧ lsExtractContent (some (LSContent.textObj "Hello, world")) = "Hello, world"
    ∧ lsExtractContent none = ""
    ∧ (openaiChatCompletion ⟨some "Hi", "gpt-4", none, none⟩).content
        = openaiExtractContent (some "Hi")
    ∧ (openaiChatCompletion ⟨some "Hi", "gpt-4", none, none⟩).raw_response
        = some ⟨some "Hi", "gpt-4", none, none⟩
    ∧ openaiExtractContent none = "" :=
  chat_content_normalization ⟨"m", none, none, 0.7, 4096⟩
    ⟨some (LSContent.str "Hello, world"), none, none⟩ ⟨some "Hi", "gpt-4", none, none⟩
    "Hello, world" [LSBlock.attrText "Hello, ", LSBlock.dictText "world", LSBlock.other]
    (by decide)

/-! ## C5: health checks and probe failures -/

/-- C5 (code bug): the Llama Stack and OpenAI health checks return `True`
even when the models-list probe fails — `list_models` swallows every
exception into `[]`, so the `except: return False` branch of
`health_check` is dead and the probe's outcome is invisible; only the
Ollama health check (which issues its own GET) maps a failed probe to
`False` as the claim and the methods' docstrings state. -/
theorem health_check_swallows_failures :
    lsHealthCheck (Except.error "connection refused") = true
    ∧ openaiHealthCheck (Except.error "connection refused") = true
    ∧ ollamaHealthCheck (Except.error "connection refused") = false
    ∧ (∀ v, lsHealthCheck v = true)
    ∧ (∀ v, openaiHealthCheck v = true) := by
  refine ⟨rfl, rfl, rfl, ?_, ?_⟩
  · intro v
    cases v with
    | ok val => cases val <;> rfl
    | error e => rfl
  · intro v
    cases v with
    | ok val => rfl
    | error e => rfl

/-! ## C9: streaming concatenation equals non-streaming content -/

/-- The chunk filtering of the streaming loop (skipping malformed lines,
message-less lines and empty chunks) preserves the concatenated text. -/
lemma joinStrs_stream_chunks (lines : List OllamaStreamLine) :
    joinStrs (ollamaStreamChunks lines) = joinStrs (lines.map ollamaLineContent) := by
  induction lines with
  | nil => rfl
  | cons l ls ih =>
    cases l with
    | message c =>
      cases c with
      | none =>
        simpa [ollamaStreamChunks, ollamaLineChunk, ollamaLineContent, joinStrs,
          empty_append_str] using ih
      | some s =>
        by_cases hs : s = ""
        · simpa [ollamaStreamChunks, ollamaLineChunk, ollamaLineContent, joinStrs,
            empty_append_str, hs] using ih
        · have ih2 : joinStrs (List.filterMap ollamaLineChunk ls)
              = joinStrs (List.map ollamaLineContent ls) := by
            simpa [ollamaStreamChunks] using ih
          simp [ollamaStreamChunks, ollamaLineChunk, ollamaLineContent, joinStrs, hs, ih2]
    | emptyLine =>
      simpa [ollamaStreamChunks, ollamaLineChunk, ollamaLineContent, joinStrs,
        empty_append_str] using ih
    | invalidJson =>
      simpa [ollamaStreamChunks, ollamaLineChunk, ollamaLineContent, joinStrs,
        empty_append_str] using ih
    | noMessageKey =>
      simpa [ollamaStreamChunks, ollamaLineChunk, ollamaLineContent, joinStrs,
        empty_append_str] using ih

/-- C9: against a fake backend whose streamed message texts concatenate to
the non-streaming response's message content, the concatenation of the
chunks yielded by `stream_chat_completion` equals the `content` of the
`chat_completion` response. -/
theorem stream_concat_eq_chat_content (base : BaseFields) (data : OllamaData)
    (lines : List OllamaStreamLine)
    (hb : joinStrs (lines.map ollamaLineContent) = ollamaChatContent data) :
    joinStrs (ollamaStreamChunks lines) = (ollamaChatCompletion base data).content := by
  rw [joinStrs_stream_chunks, hb]
  rfl

/-- Witness for C9: a stream interleaving valid chunks with an invalid
line, an empty chunk, a message-less line and an empty line concatenates
to the non-streaming content `Hello`. -/
theorem stream_concat_eq_chat_content_witness :
    joinStrs (ollamaStreamChunks
        [OllamaStreamLine.message (some "He"), OllamaStreamLine.invalidJson,
         OllamaStreamLine.message none, OllamaStreamLine.message (some "llo"),
         OllamaStreamLine.noMessageKey, OllamaStreamLine.emptyLine])
      = (ollamaChatCompletion ⟨"llama3.3:70b", none, none, 0.7, 4096⟩
          ⟨some ⟨some "Hello"⟩, some "llama3.3:70b", some "stop", some 10, some 5⟩).content :=
  stream_concat_eq_chat_content ⟨"llama3.3:70b", none, none, 0.7, 4096⟩
    ⟨some ⟨some "Hello"⟩, some "llama3.3:70b", some "stop", some 10, some 5⟩
    [OllamaStreamLine.message (some "He"), OllamaStreamLine.invalidJson,
     OllamaStreamLine.message none, OllamaStreamLine.message (some "llo"),
     OllamaStreamLine.noMessageKey, OllamaStreamLine.emptyLine]
    (by decide)

/-! ## C8: factory rejects missing or unknown provider kinds -/

/-- C8: for a configuration whose provider kind is missing, falsy, or
(lower-cased) not a registered kind, `ModelProviderFactory.create` raises
a `ValueError` — the spec's `ConfigError` — whose message mentions every
supported kind, and no adapter is constructed (the result is an error, not
a provider). -/
theorem factory_unknown_kind_raises (openai_available : Bool) (config : ProviderConfigD)
    (h : badKind config.provider = true) :
    ∃ msg, factoryCreate openai_available config
        = Except.error (FactoryError.valueError msg)
      ∧ ∀ k ∈ providerTypeAll, containsSub msg k = true := by
  cases hp : config.provider with
  | none =>
    refine ⟨missingProviderMsg, by simp [factoryCreate, hp, strTruthy], ?_⟩
    intro k hk
    simp only [providerTypeAll, List.mem_cons, List.not_mem_nil, or_false] at hk
    rcases hk with rfl | rfl | rfl <;> decide
  | some p =>
    rw [hp] at h
    simp only [badKind] at h
    by_cases hpe : p = ""
    · subst hpe
      refine ⟨missingProviderMsg, by simp [factoryCreate, hp, strTruthy], ?_⟩
      intro k hk
      simp only [providerTypeAll, List.mem_cons, List.not_mem_nil, or_false] at hk
      rcases hk with rfl | rfl | rfl <;> decide
    · have hcontains : providerTypeAll.contains (strLower p) = false := by
        simp [hpe] at h
        simpa using h
      refine ⟨unsupportedProviderMsg (strLower p), ?_, ?_⟩
      · have hnmem : strLower p ∉ providerTypeAll := by simpa using hcontains
        simp [factoryCreate, hp, strTruthy, hpe, hcontains, unsupportedProviderMsg, hnmem]
      · intro k hk
        simp only [providerTypeAll, List.mem_cons, List.not_mem_nil, or_false] at hk
        unfold unsupportedProviderMsg
        rcases hk with rfl | rfl | rfl <;>
          exact containsSub_append_right _ supportedProvidersStr _ (by decide)

/-- Witness for C8: `create` on a config with kind `unknown` raises the
unsupported-kind `ValueError` naming all three supported kinds. -/
theorem factory_unknown_kind_raises_witness :
    ∃ msg, factoryCreate true { provider := some "unknown" }
        = Except.error (FactoryError.valueError msg)
      ∧ ∀ k ∈ providerTypeAll, containsSub msg k = true :=
  factory_unknown_kind_raises true { provider := some "unknown" } (by decide)

end JiraAgent
